import Mathlib

/-!
Verification of the core logic of the attendance application (src/app/Home.py).

The Python source is shallowly embedded below: timestamps are modelled as
`Int` (seconds since an epoch, always timezone-aware UTC — `to_aware_utc` in
the source tags naive timestamps as UTC without shifting them, so it is the
identity in this model), database tables are lists of records, and the
Streamlit handlers become pure state-transforming functions.  Pandas and
SQLAlchemy operations are embedded operation-by-operation (filters, joins,
drop_duplicates, groupby/nunique, sort_values) on those lists.
-/

namespace AttendanceApp

/-! ### Python string helpers

Character-level models of the `str` methods used by the source
(`strip`, `lower`, `capitalize`, `split`, `join`, `replace`, `endswith`).
`Char.isWhitespace` stands in for Python's notion of whitespace.
-/

/-- `str.strip()`: drop leading and trailing whitespace. -/
def pyStripL (l : List Char) : List Char :=
  ((l.dropWhile Char.isWhitespace).reverse.dropWhile Char.isWhitespace).reverse

def pyStripS (s : String) : String := ⟨pyStripL s.data⟩

/-- `str.lower()` (ASCII-adequate model). -/
def pyLowerS (s : String) : String := ⟨s.data.map Char.toLower⟩

/-- `email.strip().lower()` — the normalization both check-in paths apply. -/
def normalizeEmail (e : String) : String := pyLowerS (pyStripS e)

/-- `str.split()` with no separator: split on whitespace runs, dropping empties. -/
def pyWordsAux : List Char → List Char → List (List Char)
  | [], acc => if acc = [] then [] else [acc.reverse]
  | c :: cs, acc =>
    if c.isWhitespace then
      if acc = [] then pyWordsAux cs [] else acc.reverse :: pyWordsAux cs []
    else pyWordsAux cs (c :: acc)

def pyWords (l : List Char) : List (List Char) := pyWordsAux l []

/-- `str.capitalize()`: first character upper-cased, the rest lower-cased. -/
def pyCapitalizeL : List Char → List Char
  | [] => []
  | c :: cs => c.toUpper :: cs.map Char.toLower

/-- `" ".join(s.split())`: collapse whitespace runs to single spaces, trim ends. -/
def pyJoinWordsS (s : String) : String := ⟨List.intercalate [' '] (pyWords s.data)⟩

/-- `str.split(sep)` for a single-character separator. -/
def pySplitChar (sep : Char) : List Char → List (List Char)
  | [] => [[]]
  | c :: cs =>
    let r := pySplitChar sep cs
    if c = sep then [] :: r
    else
      match r with
      | [] => [[c]]
      | w :: ws => (c :: w) :: ws

/-- `str.endswith(suf)`. -/
def pyEndsWith (s suf : String) : Bool := suf.data.isSuffixOf s.data

/-- Python `a or b` on strings: `b` when `a` is empty (falsy), else `a`. -/
def pyOr (a b : String) : String := if a = "" then b else a

/-- `EMAIL_DOMAIN = os.getenv("EMAIL_DOMAIN", "@hua.gr")` (default configuration). -/
def EMAIL_DOMAIN : String := "@hua.gr"

/-! ### Data model (SQLAlchemy tables from Home.py) -/

structure UserRec where
  id : Nat
  name : String
  email : String
  role : String
deriving DecidableEq, Repr

structure CourseRec where
  id : Nat
  code : String
  title : String
deriving DecidableEq, Repr

structure CourseInstructorRec where
  course_id : Nat
  user_id : Nat
deriving DecidableEq, Repr

structure Session where
  id : Nat
  course_id : Nat
  start_time : Int
  end_time : Option Int
  is_open : Bool
  token : String
  expires_at : Int
deriving DecidableEq, Repr

structure Attendance where
  id : Nat
  session_id : Nat
  student_name : String
  student_email : String
  created_at : Int
deriving DecidableEq, Repr

/-! ### Session lifecycle (Student Check-in tab, Instructor Panel) -/

inductive CheckinStatus where
  | ok
  | closed
  | expired
deriving DecidableEq, Repr

/--
Validation performed by the Student Check-in tab once the token resolved to a
session (Home.py lines 605-610):
`if not sess.is_open: closed; elif now_utc() > to_aware_utc(sess.expires_at):
expired; else: ok`.
-/
def validate_for_checkin (sess : Session) (now : Int) : CheckinStatus :=
  if !sess.is_open then .closed
  else if now > sess.expires_at then .expired
  else .ok

/--
"Close session" button handler (Home.py lines 698-701):
`sess.is_open = False; sess.end_time = now_utc()`.
-/
def close_session (sess : Session) (now : Int) : Session :=
  { sess with is_open := false, end_time := some now }

/--
"Extend 10 minutes" button handler (Home.py line 705), generalized over the
minute count the handler passes to `timedelta(minutes=·)`:
`sess.expires_at = max(to_aware_utc(sess.expires_at), now_utc()) + timedelta(minutes=delta)`.
-/
def extend_session (sess : Session) (now : Int) (delta_minutes : Int) : Session :=
  { sess with expires_at := max sess.expires_at now + delta_minutes * 60 }

/-- The handler as written, with its hard-coded `timedelta(minutes=10)`. -/
def extend_10 (sess : Session) (now : Int) : Session := extend_session sess now 10

/-- Ordering used by `order_by(Session.start_time.desc())`. -/
def startDesc (a b : Session) : Prop := b.start_time ≤ a.start_time

instance : DecidableRel startDesc := fun a b =>
  inferInstanceAs (Decidable (b.start_time ≤ a.start_time))

/--
Instructor Panel "Active Sessions" listing (Home.py lines 682-685):
`db.query(Session).filter_by(course_id=course.id, is_open=True).order_by(start_time.desc())`
followed by `[s for s in active if s.is_open and to_aware_utc(s.expires_at) > now]`.
-/
def active_sessions (sessions : List Session) (cid : Nat) (now : Int) : List Session :=
  let q := List.insertionSort startDesc
    (sessions.filter (fun s => s.course_id == cid && s.is_open))
  q.filter (fun s => s.is_open && decide (s.expires_at > now))

/-- Concrete session used by the C6 counterexample. -/
def closeCounterexampleSession : Session :=
  { id := 1, course_id := 1, start_time := 0, end_time := none,
    is_open := true, token := "t", expires_at := 900 }

/-! ### Check-in ledger (Student Check-in tab) -/

/--
`do_autocheckin._derive_name` (Home.py lines 579-581):
`local = email_.split("@", 1)[0].replace(".", " ").replace("_", " ").strip()`
then `" ".join(w.capitalize() for w in local.split())`.
Note the source replaces only `.` and `_` by spaces; `-` is left alone.
-/
def derive_name (email : String) : String :=
  let lp := email.data.takeWhile (fun c => c ≠ '@')
  let replaced := lp.map (fun c => if c = '.' ∨ c = '_' then ' ' else c)
  let stripped := pyStripL replaced
  ⟨List.intercalate [' '] ((pyWords stripped).map pyCapitalizeL)⟩

/-- `' '.join(part.capitalize() for part in parts if part)`. -/
def joinCapNonEmpty (parts : List (List Char)) : List Char :=
  List.intercalate [' '] ((parts.filter (fun p => p ≠ [])).map pyCapitalizeL)

/--
`email_to_display_name` (Home.py lines 316-339), used by the proxy identity
resolution (not by the check-in paths): tries the separators `.`, `_`, `-` in
that order and splits on the first one present in the local part.
-/
def email_to_display_name (email : String) : String :=
  if email = "" then "User"
  else
    let lp := email.data.takeWhile (fun c => c ≠ '@')
    if lp.contains '.' then ⟨joinCapNonEmpty (pySplitChar '.' lp)⟩
    else if lp.contains '_' then ⟨joinCapNonEmpty (pySplitChar '_' lp)⟩
    else if lp.contains '-' then ⟨joinCapNonEmpty (pySplitChar '-' lp)⟩
    else ⟨pyCapitalizeL lp⟩

/-- `filter_by(session_id=sid, student_email=ε)` row predicate. -/
def matchesAtt (sid : Nat) (ε : String) (a : Attendance) : Bool :=
  a.session_id == sid && a.student_email == ε

/-- Number of Attendance rows for a (session, normalized email) pair. -/
def countFor (db : List Attendance) (sid : Nat) (ε : String) : Nat :=
  (db.filter (matchesAtt sid ε)).length

inductive AutoResult where
  | already_recorded
  | recorded
deriving DecidableEq, Repr

/--
`do_autocheckin` (Home.py lines 578-594).  The surrogate primary key models
the autoincrement column; rows are never deleted so `db.length + 1` is fresh.
`name_from_sso or _derive_name(...)` treats `None` and `""` as absent.
-/
def do_autocheckin (db : List Attendance) (sess : Session) (email_from_sso : String)
    (name_from_sso : Option String) (now : Int) : AutoResult × List Attendance :=
  let student_email := normalizeEmail email_from_sso
  let student_name := pyStripS (match name_from_sso with
    | some n => if n = "" then derive_name student_email else n
    | none => derive_name student_email)
  match db.find? (matchesAtt sess.id student_email) with
  | some _ => (.already_recorded, db)
  | none =>
    let row : Attendance :=
      { id := db.length + 1, session_id := sess.id,
        student_name := student_name, student_email := student_email,
        created_at := now }
    (.recorded, db ++ [row])

inductive FormResult where
  | error_name
  | error_email
  | already_recorded
  | recorded
deriving DecidableEq, Repr

/--
Check-in form submit handler (Home.py lines 623-649).  When an SSO email is
present the email field is pre-filled with it (`student_email = sso_email`),
otherwise the student types `typed_email`; the handler then validates the
name, validates the email domain when no SSO identity exists, and performs the
exists-check-then-insert with `final_email = (student_email or
sso_email).strip().lower()` and name `" ".join(student_name.split())`.
-/
def checkin_form_submit (db : List Attendance) (sess : Session)
    (student_name typed_email sso_email : String) (now : Int) :
    FormResult × List Attendance :=
  let student_email := if sso_email = "" then typed_email else sso_email
  if pyStripS student_name = "" then (.error_name, db)
  else if sso_email = "" ∧ ¬(student_email ≠ "" ∧ pyEndsWith student_email EMAIL_DOMAIN) then
    (.error_email, db)
  else
    let final_email := normalizeEmail (pyOr student_email sso_email)
    match db.find? (matchesAtt sess.id final_email) with
    | some _ => (.already_recorded, db)
    | none =>
      let row : Attendance :=
        { id := db.length + 1, session_id := sess.id,
          student_name := pyJoinWordsS student_name, student_email := final_email,
          created_at := now }
      (.recorded, db ++ [row])

/-- The two ways a check-in for a session can be attempted. -/
inductive CheckinPath where
  | auto (email : String) (name : Option String)
  | form (name typed sso : String)

/-- Run a check-in attempt, keeping only the resulting ledger. -/
def runPath (db : List Attendance) (sess : Session) (p : CheckinPath) (now : Int) :
    List Attendance :=
  match p with
  | .auto email name => (do_autocheckin db sess email name now).2
  | .form name typed sso => (checkin_form_submit db sess name typed sso now).2

/-- The normalized email a check-in attempt records under. -/
def pathEmail (p : CheckinPath) : String :=
  match p with
  | .auto email _ => normalizeEmail email
  | .form _ typed sso =>
    normalizeEmail (pyOr (if sso = "" then typed else sso) sso)

/-- The attempt passes the form validations (trivially true for auto check-in). -/
def pathValid (p : CheckinPath) : Prop :=
  match p with
  | .auto _ _ => True
  | .form name typed sso =>
    pyStripS name ≠ "" ∧
    ¬(sso = "" ∧ ¬((if sso = "" then typed else sso) ≠ "" ∧
        pyEndsWith (if sso = "" then typed else sso) EMAIL_DOMAIN))

/-- Session used by the concrete check-in witnesses and counterexamples. -/
def sessW : Session :=
  { id := 7, course_id := 1, start_time := 0, end_time := none,
    is_open := true, token := "tok", expires_at := 900 }

/-! ### Bulk import (`import_courses_and_instructors_from_df`, Home.py 237-276) -/

/-- The admin-side tables the import touches. -/
@[ext]
structure AdminDB where
  courses : List CourseRec
  users : List UserRec
  links : List CourseInstructorRec
deriving DecidableEq, Repr

/--
One input row of the import DataFrame.  Each field holds what
`row.get(field, '')` returns: `some s` when the cell is a string (every cell
of the paste-import path, a non-empty CSV cell, or the `''` default when the
column is absent), and `none` when the cell is pandas `NaN` — which is what
`pd.read_csv` produces for an empty CSV cell.
-/
structure ImportRow where
  course_code : Option String
  course_title : Option String
  instructor_name : Option String
  instructor_email : Option String
deriving DecidableEq, Repr

/-- The exception a cell access can raise. -/
inductive PyError where
  /-- `AttributeError: 'float' object has no attribute 'strip'` — `.strip()`
  called on a `NaN` cell. -/
  | attributeError
deriving DecidableEq, Repr

instance {ε α : Type} [DecidableEq ε] [DecidableEq α] : DecidableEq (Except ε α) :=
  fun a b =>
    match a, b with
    | .ok x, .ok y => if h : x = y then isTrue (by rw [h]) else isFalse (by simp [h])
    | .error x, .error y => if h : x = y then isTrue (by rw [h]) else isFalse (by simp [h])
    | .ok _, .error _ => isFalse (by simp)
    | .error _, .ok _ => isFalse (by simp)

/-- `row.get(field, '').strip()`: raises `AttributeError` when the cell is
`NaN` (a float has no `.strip`). -/
def getStrip (cell : Option String) : Except PyError String :=
  match cell with
  | some s => .ok (pyStripS s)
  | none => .error .attributeError

def rowCode (row : ImportRow) : Except PyError String := getStrip row.course_code

def rowTitle (row : ImportRow) : Except PyError String := getStrip row.course_title

def rowName (row : ImportRow) : Except PyError String := getStrip row.instructor_name

/-- `row.get('instructor_email', '').strip().lower()`. -/
def rowEmail (row : ImportRow) : Except PyError String :=
  (getStrip row.instructor_email).map pyLowerS

/--
"Add or get course": `db.query(Course).filter_by(code=...).first()`, creating
the course when absent.  The surrogate id models the autoincrement key.
-/
def resolveCourse (courses : List CourseRec) (code title : String) :
    Nat × List CourseRec :=
  match courses.find? (fun c => c.code == code) with
  | some c => (c.id, courses)
  | none =>
    (courses.length + 1, courses ++ [{ id := courses.length + 1, code := code, title := title }])

/-- "Add or get instructor user", created with `role="instructor"` when absent. -/
def resolveUser (users : List UserRec) (nm em : String) : Nat × List UserRec :=
  match users.find? (fun u => u.email == em) with
  | some u => (u.id, users)
  | none =>
    (users.length + 1, users ++ [{ id := users.length + 1, name := nm, email := em, role := "instructor" }])

/-- "Assign instructor to course", creating the link when absent. -/
def resolveLink (links : List CourseInstructorRec) (cid uid : Nat) :
    List CourseInstructorRec :=
  match links.find? (fun l => l.course_id == cid && l.user_id == uid) with
  | some _ => links
  | none => links ++ [{ course_id := cid, user_id := uid }]

/--
The body of one loop iteration after the four stripped (email also
lower-cased) string values have been extracted: skip the row when any is empty
(`if not (course_code and course_title and instructor_name and instructor_email): continue`),
otherwise idempotently ensure course, instructor user and assignment.
-/
def importRowStripped (db : AdminDB) (code title nm em : String) : AdminDB :=
  if code = "" ∨ title = "" ∨ nm = "" ∨ em = "" then db
  else
    let rc := resolveCourse db.courses code title
    let ru := resolveUser db.users nm em
    { courses := rc.2, users := ru.2, links := resolveLink db.links rc.1 ru.1 }

/--
One iteration of the import loop (Home.py 244-274): the four
`row.get(field, '').strip()` extractions run first and raise `AttributeError`
on a `NaN` cell; only when all four succeed does the skip-or-ensure body run.
-/
def importRow (db : AdminDB) (row : ImportRow) : Except PyError AdminDB := do
  let code ← rowCode row
  let title ← rowTitle row
  let nm ← rowName row
  let em ← rowEmail row
  return importRowStripped db code title nm em

/-- Outcome of the whole import: the loop either completes or an uncaught
exception escapes mid-loop; the per-entity `db.commit()` calls mean the state
reached so far persists either way. -/
inductive ImportResult where
  | done (db : AdminDB)
  | aborted (e : PyError) (db : AdminDB)
deriving DecidableEq, Repr

/-- `import_courses_and_instructors_from_df`: the `for _, row in df.iterrows()`
loop (the summary-message counters of the source are UI output and not
modelled).  An exception in an iteration aborts the remaining iterations. -/
def import_courses_and_instructors_from_df (db : AdminDB) :
    List ImportRow → ImportResult
  | [] => .done db
  | row :: rest =>
    match importRow db row with
    | .ok db' => import_courses_and_instructors_from_df db' rest
    | .error e => .aborted e db

/-- Bulk-import test row: a valid row. -/
def rowAda : ImportRow :=
  { course_code := some "CS101", course_title := some "Intro",
    instructor_name := some "Ada", instructor_email := some "ada@hua.gr" }

/-- Bulk-import test row: `instructor_email` present but empty — the paste
path's representation of a missing field. -/
def rowBobMissing : ImportRow :=
  { course_code := some "CS102", course_title := some "Algo",
    instructor_name := some "Bob", instructor_email := some "" }

/-- Bulk-import test row: `instructor_email` is a `NaN` cell — what
`pd.read_csv` yields for an empty CSV field. -/
def rowBobNaN : ImportRow :=
  { course_code := some "CS102", course_title := some "Algo",
    instructor_name := some "Bob", instructor_email := none }

/-- Bulk-import test row: another valid row. -/
def rowCleo : ImportRow :=
  { course_code := some "CS103", course_title := some "Data",
    instructor_name := some "Cleo", instructor_email := some "cleo@hua.gr" }

/-- The database state after importing `rowAda` into an empty database. -/
def dbAfterAda : AdminDB :=
  { courses := [{ id := 1, code := "CS101", title := "Intro" }],
    users := [{ id := 1, name := "Ada", email := "ada@hua.gr", role := "instructor" }],
    links := [{ course_id := 1, user_id := 1 }] }

/-- The final database when the Ada / empty-string-Bob / Cleo rows import: the
bad row is skipped and both valid rows land. -/
def dbAdaCleo : AdminDB :=
  { courses := [{ id := 1, code := "CS101", title := "Intro" },
                { id := 2, code := "CS103", title := "Data" }],
    users := [{ id := 1, name := "Ada", email := "ada@hua.gr", role := "instructor" },
              { id := 2, name := "Cleo", email := "cleo@hua.gr", role := "instructor" }],
    links := [{ course_id := 1, user_id := 1 }, { course_id := 2, user_id := 2 }] }

/-! ### Reports (`get_report_base_query`, `df_from_query`, `group_df`,
`course_attendance_rates`, Home.py 144-235) -/

/-- One row of the report base query's 7-column projection. -/
structure ReportRow where
  course_code : String
  course_title : String
  session_id : Nat
  session_start : Int
  student_name : String
  student_email : String
  check_in_at : Int
deriving DecidableEq, Repr

/-- The tables the report query reads. -/
structure ReportDB where
  users : List UserRec
  courses : List CourseRec
  course_instructors : List CourseInstructorRec
  sessions : List Session
  attendance : List Attendance

/-- The two inner joins `Session.course_id == Course.id` and
`Attendance.session_id == Session.id`. -/
def joinedTriples (db : ReportDB) : List (CourseRec × Session × Attendance) :=
  db.courses.flatMap (fun c =>
    (db.sessions.filter (fun s => s.course_id == c.id)).flatMap (fun s =>
      (db.attendance.filter (fun a => a.session_id == s.id)).map (fun a => (c, s, a))))

/-- The 7-column SELECT projection. -/
def projectRow (tr : CourseRec × Session × Attendance) : ReportRow :=
  { course_code := tr.1.code, course_title := tr.1.title, session_id := tr.2.1.id,
    session_start := tr.2.1.start_time, student_name := tr.2.2.student_name,
    student_email := tr.2.2.student_email, check_in_at := tr.2.2.created_at }

/--
`get_report_base_query` (Home.py 144-168).  The optional instructor scoping
joins through CourseInstructor and User and filters on the email (under the
schema's uniqueness constraints the join contributes at most one match per
course, so it is a filter); `if course_ids:` treats an empty list as no
filter; the date bounds are `created_at >= date_from` and
`created_at < date_to`.
-/
def get_report_base_query (db : ReportDB) (instructor_email : Option String)
    (course_ids : Option (List Nat)) (date_from date_to : Option Int) :
    List ReportRow :=
  let q0 := joinedTriples db
  let q1 := match instructor_email with
    | none => q0
    | some e => q0.filter (fun tr =>
        db.course_instructors.any (fun ci => ci.course_id == tr.1.id &&
          db.users.any (fun u => u.id == ci.user_id && u.email == e)))
  let q2 := match course_ids with
    | none => q1
    | some [] => q1
    | some ids => q1.filter (fun tr => ids.contains tr.1.id)
  let q3 := match date_from with
    | none => q2
    | some f => q2.filter (fun tr => decide (f ≤ tr.2.2.created_at))
  let q4 := match date_to with
    | none => q3
    | some t => q3.filter (fun tr => decide (tr.2.2.created_at < t))
  q4.map projectRow

/-- A pandas DataFrame of report rows: column labels plus the typed rows. -/
structure Frame where
  cols : List String
  rows : List ReportRow

def reportCols : List String :=
  ["course_code", "course_title", "session_id", "session_start",
   "student_name", "student_email", "check_in_at"]

/--
`df_from_query` (Home.py 170-184): an empty result still yields a frame with
the seven report columns; otherwise the two timestamp columns are converted
from UTC to the Europe/Athens wall clock — external tz-database logic,
abstracted as the conversion `tz`.
-/
def df_from_query (tz : Int → Int) (q : List ReportRow) : Frame :=
  match q with
  | [] => { cols := reportCols, rows := [] }
  | rows =>
    { cols := reportCols,
      rows := rows.map (fun r =>
        { r with session_start := tz r.session_start, check_in_at := tz r.check_in_at }) }

/-- `DataFrame.drop_duplicates(subset)`: keep the first row for each key. -/
def dropDupByAux {α κ : Type} [DecidableEq κ] (key : α → κ) :
    List α → List κ → List α
  | [], _ => []
  | x :: xs, seen =>
    if key x ∈ seen then dropDupByAux key xs seen
    else x :: dropDupByAux key xs (key x :: seen)

def dropDuplicatesBy {α κ : Type} [DecidableEq κ] (key : α → κ) (l : List α) :
    List α :=
  dropDupByAux key l []

/-- `Series.round(1)` on exact rationals: ties round to even (IEEE/numpy). -/
def roundHalfEven (q : ℚ) : ℤ :=
  let f : ℤ := ⌊q⌋
  let frac : ℚ := q - f
  if frac < 1 / 2 then f
  else if 1 / 2 < frac then f + 1
  else if f % 2 = 0 then f else f + 1

def round1 (q : ℚ) : ℚ := (roundHalfEven (q * 10) : ℚ) / 10

/-- One output row of `course_attendance_rates`. -/
structure RateRow where
  course_code : String
  student_email : String
  attended_sessions : Nat
  total_sessions : Nat
  rate : ℚ
deriving DecidableEq, Repr

/-- groupby key order on (course_code, student_email). -/
def pairLE (a b : String × String) : Prop :=
  a.1 < b.1 ∨ (a.1 = b.1 ∧ a.2 ≤ b.2)

instance : DecidableRel pairLE := fun a b =>
  inferInstanceAs (Decidable (_ ∨ _))

/-- `sort_values(["course_code","attendance_rate_%"], ascending=[True, False])`. -/
def rateLE (a b : RateRow) : Prop :=
  a.course_code < b.course_code ∨ (a.course_code = b.course_code ∧ b.rate ≤ a.rate)

instance : DecidableRel rateLE := fun a b =>
  inferInstanceAs (Decidable (_ ∨ _))

instance : IsTotal RateRow rateLE where
  total a b := by
    rcases lt_trichotomy a.course_code b.course_code with h | h | h
    · exact Or.inl (Or.inl h)
    · rcases le_total a.rate b.rate with hr | hr
      · exact Or.inr (Or.inr ⟨h.symm, hr⟩)
      · exact Or.inl (Or.inr ⟨h, hr⟩)
    · exact Or.inr (Or.inl h)

instance : IsTrans RateRow rateLE where
  trans a b c hab hbc := by
    rcases hab with hab | ⟨hab, hra⟩
    · rcases hbc with hbc | ⟨hbc, _⟩
      · exact Or.inl (hab.trans hbc)
      · exact Or.inl (hbc ▸ hab)
    · rcases hbc with hbc | ⟨hbc, hrb⟩
      · exact Or.inl (hab ▸ hbc)
      · exact Or.inr ⟨hab.trans hbc, hrb.trans hra⟩

/-- `df.drop_duplicates(["course_code","session_id"])`. -/
def totalDfOf (rows : List ReportRow) : List ReportRow :=
  dropDuplicatesBy (fun r => (r.course_code, r.session_id)) rows

/-- `df.drop_duplicates(["course_code","session_id","student_email"])`. -/
def attendedDfOf (rows : List ReportRow) : List ReportRow :=
  dropDuplicatesBy (fun r => (r.course_code, r.session_id, r.student_email)) rows

/-- `.groupby("course_code")["session_id"].nunique()` evaluated at course `c`. -/
def totalSessionsOf (rows : List ReportRow) (c : String) : Nat :=
  (((totalDfOf rows).filter (fun r => r.course_code == c)).map
    (fun r => r.session_id)).dedup.length

/-- `.groupby(["course_code","student_email"])["session_id"].nunique()` at `(c, e)`. -/
def attendedSessionsOf (rows : List ReportRow) (c e : String) : Nat :=
  (((attendedDfOf rows).filter (fun r => r.course_code == c && r.student_email == e)).map
    (fun r => r.session_id)).dedup.length

/-- The index of the `total_sessions` series (courses that appear in range). -/
def totalCoursesOf (rows : List ReportRow) : List String :=
  ((totalDfOf rows).map (fun r => r.course_code)).dedup

/-- The groupby keys of the `attended` frame, in groupby's sorted key order. -/
def pairsOf (rows : List ReportRow) : List (String × String) :=
  List.insertionSort pairLE
    (((attendedDfOf rows).map (fun r => (r.course_code, r.student_email))).dedup)

/-- One merged output row:
`attendance_rate_% = (attended_sessions / total_sessions * 100).round(1)`. -/
def rateRowOf (rows : List ReportRow) (p : String × String) : RateRow :=
  { course_code := p.1, student_email := p.2,
    attended_sessions := attendedSessionsOf rows p.1 p.2,
    total_sessions := totalSessionsOf rows p.1,
    rate := round1 ((attendedSessionsOf rows p.1 p.2 : ℚ)
      / (totalSessionsOf rows p.1 : ℚ) * 100) }

def ratesCols : List String :=
  ["course_code", "student_email", "attended_sessions", "total_sessions",
   "attendance_rate_%"]

/--
`course_attendance_rates` (Home.py 225-235): empty input yields the empty
`pd.DataFrame()` (no columns); otherwise per-(course, student) distinct-session
counts are merged (inner, on `course_code`) with per-course distinct-session
counts, the percentage is rounded to one decimal, and the result is sorted by
course ascending then rate descending.
-/
def course_attendance_rates (df : Frame) : List String × List RateRow :=
  if df.rows.isEmpty then ([], [])
  else
    (ratesCols, List.insertionSort rateLE
      (((pairsOf df.rows).filter (fun p => (totalCoursesOf df.rows).contains p.1)).map
        (rateRowOf df.rows)))

/-! #### `group_df` (Home.py 186-223) -/

structure GroupedRow where
  course_code : String
  course_title : String
  bucket : Int
  check_ins : Nat
  unique_students : Nat
  sessions : Nat
deriving DecidableEq, Repr

def groupedCols : List String :=
  ["course_code", "course_title", "bucket", "check_ins", "unique_students", "sessions"]

structure GroupedFrame where
  cols : List String
  rows : List GroupedRow

structure PivotFrame where
  index : List Int
  cols : List String
  cells : List (List Nat)

/-- `group_df` returns the input frame itself when it is empty, else a grouped
frame — a dynamically-typed union, embedded as a sum. -/
inductive DFOrGrouped where
  | passthrough (df : Frame)
  | grouped (g : GroupedFrame)

inductive DFOrPivot where
  | passthrough (df : Frame)
  | pivot (p : PivotFrame)

/-- `sort_values(["bucket", "course_code"])`. -/
def gbLE (a b : GroupedRow) : Prop :=
  a.bucket < b.bucket ∨ (a.bucket = b.bucket ∧ a.course_code ≤ b.course_code)

instance : DecidableRel gbLE := fun a b =>
  inferInstanceAs (Decidable (_ ∨ _))

/-- `groupby(["course_code","course_title","bucket"]).agg(...)` followed by
`sort_values(["bucket","course_code"])`. -/
def groupedRowsOf (rows : List ReportRow) (bucket : Int → Int) : List GroupedRow :=
  let keys := (rows.map (fun r => (r.course_code, r.course_title, bucket r.check_in_at))).dedup
  let agg := keys.map (fun k =>
    let grp := rows.filter (fun r =>
      r.course_code == k.1 && r.course_title == k.2.1 && bucket r.check_in_at == k.2.2)
    { course_code := k.1, course_title := k.2.1, bucket := k.2.2,
      check_ins := grp.length,
      unique_students := (grp.map (fun r => r.student_email)).dedup.length,
      sessions := (grp.map (fun r => r.session_id)).dedup.length : GroupedRow })
  List.insertionSort gbLE agg

/-- `pivot_table(index="bucket", columns="course_code", values="check_ins",
aggfunc="sum", fill_value=0).sort_index()`. -/
def pivotOf (grouped : List GroupedRow) : PivotFrame :=
  let buckets := List.insertionSort (fun a b : Int => a ≤ b)
    ((grouped.map (fun g => g.bucket)).dedup)
  let codes := List.insertionSort (fun a b : String => a ≤ b)
    ((grouped.map (fun g => g.course_code)).dedup)
  { index := buckets, cols := codes,
    cells := buckets.map (fun b => codes.map (fun c =>
      ((grouped.filter (fun g => g.bucket == b && g.course_code == c)).map
        (fun g => g.check_ins)).sum)) }

/--
`group_df` (Home.py 186-223): an empty frame is returned unchanged as both the
grouped and the pivot result; otherwise rows are bucketed by `bucket` applied
to `check_in_at` (the `floor("D")`/`to_period(...)` calendar arithmetic is
external, abstracted as `bucket`), aggregated per (course, bucket) and
pivoted.
-/
def group_df (df : Frame) (bucket : Int → Int) : DFOrGrouped × DFOrPivot :=
  if df.rows.isEmpty then (.passthrough df, .passthrough df)
  else
    let grouped := groupedRowsOf df.rows bucket
    (.grouped { cols := groupedCols, rows := grouped }, .pivot (pivotOf grouped))

/-! #### Specification-side distinct counts for C4 -/

/-- Distinct sessions the student checked into for the course, straight from
the raw filtered row set. -/
def distinctSessionsFor (rows : List ReportRow) (c e : String) : Nat :=
  ((rows.filter (fun r => r.course_code == c && r.student_email == e)).map
    (fun r => r.session_id)).toFinset.card

/-- Distinct sessions appearing for the course in the raw filtered row set. -/
def distinctSessionsOfCourse (rows : List ReportRow) (c : String) : Nat :=
  ((rows.filter (fun r => r.course_code == c)).map (fun r => r.session_id)).toFinset.card

/-- Scenario rows for C4: course C with sessions 1 and 2; Alice checks into
both, Bob only into session 1. -/
def scenarioRows : List ReportRow :=
  [{ course_code := "C", course_title := "Course C", session_id := 1, session_start := 0,
     student_name := "Alice", student_email := "alice@hua.gr", check_in_at := 10 },
   { course_code := "C", course_title := "Course C", session_id := 2, session_start := 100,
     student_name := "Alice", student_email := "alice@hua.gr", check_in_at := 110 },
   { course_code := "C", course_title := "Course C", session_id := 1, session_start := 0,
     student_name := "Bob", student_email := "bob@hua.gr", check_in_at := 20 }]

/-- Expected rate table for the scenario: Alice 100.0, Bob 50.0. -/
def scenarioExpected : List RateRow :=
  [{ course_code := "C", student_email := "alice@hua.gr", attended_sessions := 2,
     total_sessions := 2, rate := 100 },
   { course_code := "C", student_email := "bob@hua.gr", attended_sessions := 1,
     total_sessions := 2, rate := 50 }]

/-! ### Theorems for the claims -/

/--
C1: for every session and instant `now`, check-in validation returns `ok` iff
`is_open = true ∧ now ≤ expires_at`, `expired` iff `is_open = true ∧
now > expires_at`, and `closed` iff `is_open = false`; in particular a session
whose expiry has passed is rejected even when `is_open` still reads true.
-/
theorem checkin_validation_trichotomy : ∀ (s : Session) (now : Int),
    (validate_for_checkin s now = .ok ↔ s.is_open = true ∧ now ≤ s.expires_at) ∧
    (validate_for_checkin s now = .expired ↔ s.is_open = true ∧ now > s.expires_at) ∧
    (validate_for_checkin s now = .closed ↔ s.is_open = false) := by
  intro s now
  unfold validate_for_checkin
  rcases hs : s.is_open <;> rcases le_or_lt now s.expires_at with h | h
  · simp [hs, h, not_lt.mpr h]
  · simp [hs, h, le_of_lt h, not_le.mpr h]
  · simp [hs, h, not_lt.mpr h]
  · simp [hs, h, le_of_lt h, not_le.mpr h]

/--
C3: extending a not-explicitly-closed session by `delta` minutes sets the new
expiry to `max(current expires_at, now) + delta`; when the session is already
expired the new expiry is `now + delta`, otherwise it is `old expires_at +
delta`.  The UI handler is the `delta = 10` instance.
-/
theorem extend_sets_expiry_from_max (s : Session) (now delta : Int)
    (hopen : s.is_open = true) :
    (extend_session s now delta).expires_at = max s.expires_at now + delta * 60 ∧
    (now > s.expires_at → (extend_session s now delta).expires_at = now + delta * 60) ∧
    (now ≤ s.expires_at → (extend_session s now delta).expires_at = s.expires_at + delta * 60) ∧
    extend_10 s now = extend_session s now 10 := by
  refine ⟨rfl, ?_, ?_, rfl⟩
  · intro h
    simp [extend_session, max_eq_right (le_of_lt h)]
  · intro h
    simp [extend_session, max_eq_left h]

theorem extend_sets_expiry_from_max_witness :
    (({ id := 1, course_id := 1, start_time := 0, end_time := none,
        is_open := true, token := "t", expires_at := 900 } : Session).is_open = true) ∧
    (extend_session
      { id := 1, course_id := 1, start_time := 0, end_time := none,
        is_open := true, token := "t", expires_at := 900 } 1200 10).expires_at
      = 1200 + 10 * 60 :=
  ⟨by decide,
   (extend_sets_expiry_from_max
      { id := 1, course_id := 1, start_time := 0, end_time := none,
        is_open := true, token := "t", expires_at := 900 } 1200 10 (by decide)).2.1
      (by decide)⟩

/--
C6 counterexample: closing twice at instants 0 and then 1 does not produce the
same observable state as closing once at instant 0 — the second close
overwrites `end_time`.
-/
theorem close_twice_differs_from_close_once :
    close_session (close_session closeCounterexampleSession 0) 1
      ≠ close_session closeCounterexampleSession 0 := by
  decide

/--
C6 (amended): `close` sets `is_open := false` and `end_time :=` the instant of
the close; closing twice equals a single close at the second instant, so every
field except `end_time` — in particular `is_open` — matches closing once, and
closing twice at the same instant is exactly closing once.  A second close at
a later instant overwrites `end_time` rather than being a no-op.
-/
theorem close_idempotent_up_to_end_time : ∀ (s : Session) (t t' : Int),
    close_session (close_session s t) t' = close_session s t' ∧
    close_session (close_session s t) t = close_session s t ∧
    (close_session (close_session s t) t').is_open = (close_session s t).is_open ∧
    (close_session (close_session s t) t').end_time = some t' := by
  intro s t t'
  refine ⟨rfl, rfl, rfl, rfl⟩

/--
C9: at the instant `now = expires_at` an open session is still accepted by the
check-in validation (its rejection condition is strict `now > expires_at`),
but the Instructor Panel "Active Sessions" listing excludes it (its inclusion
condition is strict `expires_at > now`).
-/
theorem checkin_listing_boundary_asymmetry (s : Session) (now : Int)
    (hopen : s.is_open = true) (hexp : s.expires_at = now) :
    validate_for_checkin s now = .ok ∧
    ∀ (l : List Session) (cid : Nat), s ∉ active_sessions l cid now := by
  constructor
  · unfold validate_for_checkin
    simp [hopen, hexp]
  · intro l cid hmem
    have := List.of_mem_filter hmem
    simp [hexp] at this

theorem checkin_listing_boundary_asymmetry_witness :
    (({ id := 1, course_id := 1, start_time := 0, end_time := none,
        is_open := true, token := "t", expires_at := 900 } : Session).is_open = true) ∧
    validate_for_checkin
      { id := 1, course_id := 1, start_time := 0, end_time := none,
        is_open := true, token := "t", expires_at := 900 } 900 = .ok :=
  ⟨by decide,
   (checkin_listing_boundary_asymmetry
      { id := 1, course_id := 1, start_time := 0, end_time := none,
        is_open := true, token := "t", expires_at := 900 } 900 (by decide) (by decide)).1⟩

theorem countFor_pos_iff_find?_isSome (db : List Attendance) (sid : Nat) (ε : String) :
    0 < countFor db sid ε ↔ (db.find? (matchesAtt sid ε)).isSome := by
  rw [countFor, List.length_pos, Ne, List.filter_eq_nil_iff, List.find?_isSome]
  push_neg
  simp

theorem do_autocheckin_already (db : List Attendance) (sess : Session) (e : String)
    (n : Option String) (now : Int) (h : 0 < countFor db sess.id (normalizeEmail e)) :
    do_autocheckin db sess e n now = (.already_recorded, db) := by
  have hf := (countFor_pos_iff_find?_isSome db sess.id (normalizeEmail e)).1 h
  unfold do_autocheckin
  cases hfind : db.find? (matchesAtt sess.id (normalizeEmail e)) with
  | none => rw [hfind] at hf; simp at hf
  | some a => simp [hfind]

theorem checkin_form_submit_already (db : List Attendance) (sess : Session)
    (name typed sso : String) (now : Int) (hv : pathValid (.form name typed sso))
    (h : 0 < countFor db sess.id (pathEmail (.form name typed sso))) :
    checkin_form_submit db sess name typed sso now = (.already_recorded, db) := by
  obtain ⟨hn, he⟩ := hv
  have hf := (countFor_pos_iff_find?_isSome db sess.id _).1 h
  unfold checkin_form_submit
  rw [if_neg hn, if_neg he]
  simp only [pathEmail] at hf
  cases hfind : db.find? (matchesAtt sess.id
      (normalizeEmail (pyOr (if sso = "" then typed else sso) sso))) with
  | none => rw [hfind] at hf; simp at hf
  | some a => simp [hfind]

theorem countFor_append_match (db : List Attendance) (sid : Nat) (ε : String)
    (row : Attendance) (hrow : matchesAtt sid ε row = true) :
    countFor (db ++ [row]) sid ε = countFor db sid ε + 1 := by
  simp [countFor, List.filter_append, hrow]

theorem runPath_records (db : List Attendance) (sess : Session) (p : CheckinPath)
    (now : Int) (hv : pathValid p)
    (h : countFor db sess.id (pathEmail p) = 0) :
    countFor (runPath db sess p now) sess.id (pathEmail p) = 1 := by
  have hfind : db.find? (matchesAtt sess.id (pathEmail p)) = none := by
    by_contra hc
    have : 0 < countFor db sess.id (pathEmail p) :=
      (countFor_pos_iff_find?_isSome db sess.id (pathEmail p)).2
        (Option.isSome_iff_ne_none.mpr hc)
    omega
  cases p with
  | auto email name =>
    simp only [runPath, do_autocheckin, pathEmail] at *
    rw [hfind, countFor_append_match, h]
    simp [matchesAtt]
  | form name typed sso =>
    obtain ⟨hn, he⟩ := hv
    simp only [runPath, checkin_form_submit, pathEmail] at *
    rw [if_neg hn, if_neg he, hfind, countFor_append_match, h]
    simp [matchesAtt]

theorem runPath_already (db : List Attendance) (sess : Session) (p : CheckinPath)
    (now : Int) (hv : pathValid p) (h : 0 < countFor db sess.id (pathEmail p)) :
    runPath db sess p now = db := by
  cases p with
  | auto email name =>
    simp only [runPath]
    rw [do_autocheckin_already db sess email name now h]
  | form name typed sso =>
    simp only [runPath]
    rw [checkin_form_submit_already db sess name typed sso now hv h]

/--
C2: when an Attendance row for (session.id, normalized email) already exists,
both the auto-check-in path and the form path return `already_recorded` and
leave the ledger untouched; consequently recording the same (session, email)
twice — through any combination of the two paths — leaves exactly one
Attendance row for that pair.
-/
theorem checkin_recording_idempotent :
    (∀ (db : List Attendance) (sess : Session) (e : String) (n : Option String) (now : Int),
       0 < countFor db sess.id (normalizeEmail e) →
       do_autocheckin db sess e n now = (.already_recorded, db)) ∧
    (∀ (db : List Attendance) (sess : Session) (name typed sso : String) (now : Int),
       pathValid (.form name typed sso) →
       0 < countFor db sess.id (pathEmail (.form name typed sso)) →
       checkin_form_submit db sess name typed sso now = (.already_recorded, db)) ∧
    (∀ (db : List Attendance) (sess : Session) (p₁ p₂ : CheckinPath) (t₁ t₂ : Int),
       pathValid p₁ → pathValid p₂ → pathEmail p₂ = pathEmail p₁ →
       countFor db sess.id (pathEmail p₁) = 0 →
       countFor (runPath (runPath db sess p₁ t₁) sess p₂ t₂) sess.id (pathEmail p₁) = 1) := by
  refine ⟨do_autocheckin_already, checkin_form_submit_already, ?_⟩
  intro db sess p₁ p₂ t₁ t₂ hv₁ hv₂ heq h0
  have h1 : countFor (runPath db sess p₁ t₁) sess.id (pathEmail p₁) = 1 :=
    runPath_records db sess p₁ t₁ hv₁ h0
  have h2 : runPath (runPath db sess p₁ t₁) sess p₂ t₂ = runPath db sess p₁ t₁ := by
    apply runPath_already _ sess p₂ t₂ hv₂
    rw [heq, h1]
    omega
  rw [h2, h1]

theorem checkin_recording_idempotent_witness :
    (pathValid (.form "Alice A" "alice@hua.gr" "") ∧
     countFor [] sessW.id (pathEmail (.auto "Alice@hua.gr" (some "Alice"))) = 0 ∧
     pathEmail (.form "Alice A" "alice@hua.gr" "")
       = pathEmail (.auto "Alice@hua.gr" (some "Alice"))) ∧
    countFor (runPath (runPath [] sessW (.auto "Alice@hua.gr" (some "Alice")) 0) sessW
        (.form "Alice A" "alice@hua.gr" "") 5) sessW.id
      (pathEmail (.auto "Alice@hua.gr" (some "Alice"))) = 1 :=
  ⟨⟨⟨by decide, by decide⟩, by decide, by decide⟩,
   checkin_recording_idempotent.2.2 [] sessW (.auto "Alice@hua.gr" (some "Alice"))
     (.form "Alice A" "alice@hua.gr" "") 0 5 trivial ⟨by decide, by decide⟩
     (by decide) (by decide)⟩

/--
C7 counterexample: a check-in arriving with only the email
`john-doe@hua.gr` (no human-supplied name) is recorded under the display name
`"John-doe"` — `do_autocheckin._derive_name` does not split on `-` — whereas
the claim requires `"John Doe"`.
-/
theorem derive_name_dash_counterexample :
    (do_autocheckin [] sessW "john-doe@hua.gr" none 0).2
      = [{ id := 1, session_id := 7, student_name := "John-doe",
           student_email := "john-doe@hua.gr", created_at := 0 }] ∧
    derive_name "john-doe@hua.gr" ≠ "John Doe" := by
  decide

/--
C7 (amended): the name the check-in derives when no human-supplied name is
available splits the local part of the email on `.` and `_` only — not on
`-` — and capitalizes each fragment, so `john.doe` and `john_doe` yield
`"John Doe"` but `john-doe` yields `"John-doe"` (`str.capitalize` lower-cases
the rest of the fragment).  The separate `email_to_display_name` helper, used
only by the proxy identity resolution, does additionally split on `-` and
yields `"John Doe"` there.
-/
theorem derive_name_amended :
    derive_name "john.doe@hua.gr" = "John Doe" ∧
    derive_name "john_doe@hua.gr" = "John Doe" ∧
    derive_name "john-doe@hua.gr" = "John-doe" ∧
    (do_autocheckin [] sessW "maria.p@hua.gr" none 0).2
      = [{ id := 1, session_id := 7, student_name := "Maria P",
           student_email := "maria.p@hua.gr", created_at := 0 }] ∧
    email_to_display_name "john-doe@hua.gr" = "John Doe" := by
  decide

theorem resolveCourse_found (courses : List CourseRec) (code title : String)
    (h : ∃ c ∈ courses, c.code = code) :
    (resolveCourse courses code title).2 = courses := by
  obtain ⟨c, hc, hcode⟩ := h
  unfold resolveCourse
  cases hfind : courses.find? (fun c => c.code == code) with
  | some c' => rfl
  | none =>
    rw [List.find?_eq_none] at hfind
    exact absurd (by simp [hcode]) (hfind c hc)

theorem resolveCourse_absent (courses : List CourseRec) (code title : String)
    (h : ∀ c ∈ courses, c.code ≠ code) :
    (resolveCourse courses code title).2
      = courses ++ [{ id := courses.length + 1, code := code, title := title }] := by
  unfold resolveCourse
  cases hfind : courses.find? (fun c => c.code == code) with
  | some c' =>
    have hm := List.mem_of_find?_eq_some hfind
    have hp := List.find?_some hfind
    simp only [beq_iff_eq] at hp
    exact absurd hp (h c' hm)
  | none => rfl

theorem resolveCourse_mem (courses : List CourseRec) (code title : String) :
    ∃ c ∈ (resolveCourse courses code title).2,
      c.code = code ∧ c.id = (resolveCourse courses code title).1 := by
  unfold resolveCourse
  cases hfind : courses.find? (fun c => c.code == code) with
  | some c' =>
    have hm := List.mem_of_find?_eq_some hfind
    have hp := List.find?_some hfind
    simp only [beq_iff_eq] at hp
    exact ⟨c', hm, hp, rfl⟩
  | none =>
    exact ⟨_, List.mem_append_right _ (List.mem_singleton.mpr rfl), rfl, rfl⟩

theorem resolveCourse_idem (courses : List CourseRec) (code title : String) :
    resolveCourse (resolveCourse courses code title).2 code title
      = resolveCourse courses code title := by
  unfold resolveCourse
  cases hfind : courses.find? (fun c => c.code == code) with
  | some c' => simp [hfind]
  | none =>
    simp only [hfind, List.find?_append, Option.none_or]
    rw [List.find?_cons_of_pos _ (by simp)]

theorem resolveUser_found (users : List UserRec) (nm em : String)
    (h : ∃ u ∈ users, u.email = em) :
    (resolveUser users nm em).2 = users := by
  obtain ⟨u, hu, hemail⟩ := h
  unfold resolveUser
  cases hfind : users.find? (fun u => u.email == em) with
  | some u' => rfl
  | none =>
    rw [List.find?_eq_none] at hfind
    exact absurd (by simp [hemail]) (hfind u hu)

theorem resolveUser_absent (users : List UserRec) (nm em : String)
    (h : ∀ u ∈ users, u.email ≠ em) :
    (resolveUser users nm em).2
      = users ++ [{ id := users.length + 1, name := nm, email := em, role := "instructor" }] := by
  unfold resolveUser
  cases hfind : users.find? (fun u => u.email == em) with
  | some u' =>
    have hm := List.mem_of_find?_eq_some hfind
    have hp := List.find?_some hfind
    simp only [beq_iff_eq] at hp
    exact absurd hp (h u' hm)
  | none => rfl

theorem resolveUser_mem (users : List UserRec) (nm em : String) :
    ∃ u ∈ (resolveUser users nm em).2,
      u.email = em ∧ u.id = (resolveUser users nm em).1 := by
  unfold resolveUser
  cases hfind : users.find? (fun u => u.email == em) with
  | some u' =>
    have hm := List.mem_of_find?_eq_some hfind
    have hp := List.find?_some hfind
    simp only [beq_iff_eq] at hp
    exact ⟨u', hm, hp, rfl⟩
  | none =>
    exact ⟨_, List.mem_append_right _ (List.mem_singleton.mpr rfl), rfl, rfl⟩

theorem resolveUser_idem (users : List UserRec) (nm em : String) :
    resolveUser (resolveUser users nm em).2 nm em = resolveUser users nm em := by
  unfold resolveUser
  cases hfind : users.find? (fun u => u.email == em) with
  | some u' => simp [hfind]
  | none =>
    simp only [hfind, List.find?_append, Option.none_or]
    rw [List.find?_cons_of_pos _ (by simp)]

theorem resolveLink_mem (links : List CourseInstructorRec) (cid uid : Nat) :
    ∃ l ∈ resolveLink links cid uid, l.course_id = cid ∧ l.user_id = uid := by
  unfold resolveLink
  cases hfind : links.find? (fun l => l.course_id == cid && l.user_id == uid) with
  | some l' =>
    have hm := List.mem_of_find?_eq_some hfind
    have hp := List.find?_some hfind
    simp only [Bool.and_eq_true, beq_iff_eq] at hp
    exact ⟨l', hm, hp⟩
  | none =>
    exact ⟨_, List.mem_append_right _ (List.mem_singleton.mpr rfl), rfl, rfl⟩

theorem resolveLink_idem (links : List CourseInstructorRec) (cid uid : Nat) :
    resolveLink (resolveLink links cid uid) cid uid = resolveLink links cid uid := by
  unfold resolveLink
  cases hfind : links.find? (fun l => l.course_id == cid && l.user_id == uid) with
  | some l' => simp [hfind]
  | none =>
    simp only [hfind, List.find?_append, Option.none_or]
    rw [List.find?_cons_of_pos _ (by simp)]

theorem importRowStripped_skip (db : AdminDB) (code title nm em : String)
    (h : code = "" ∨ title = "" ∨ nm = "" ∨ em = "") :
    importRowStripped db code title nm em = db := by
  unfold importRowStripped
  rw [if_pos h]

theorem importRowStripped_complete (db : AdminDB) (code title nm em : String)
    (h : ¬(code = "" ∨ title = "" ∨ nm = "" ∨ em = "")) :
    (importRowStripped db code title nm em).courses = (resolveCourse db.courses code title).2 ∧
    (importRowStripped db code title nm em).users = (resolveUser db.users nm em).2 ∧
    (importRowStripped db code title nm em).links = resolveLink db.links
      (resolveCourse db.courses code title).1 (resolveUser db.users nm em).1 := by
  unfold importRowStripped
  rw [if_neg h]
  exact ⟨rfl, rfl, rfl⟩

theorem importRowStripped_idem (db : AdminDB) (code title nm em : String) :
    importRowStripped (importRowStripped db code title nm em) code title nm em
      = importRowStripped db code title nm em := by
  by_cases h : code = "" ∨ title = "" ∨ nm = "" ∨ em = ""
  · rw [importRowStripped_skip db code title nm em h,
      importRowStripped_skip db code title nm em h]
  · obtain ⟨hc, hu, hl⟩ := importRowStripped_complete db code title nm em h
    obtain ⟨hc2, hu2, hl2⟩ :=
      importRowStripped_complete (importRowStripped db code title nm em) code title nm em h
    have hcid : resolveCourse (importRowStripped db code title nm em).courses code title
        = resolveCourse db.courses code title := by
      rw [hc]; exact resolveCourse_idem _ _ _
    have huid : resolveUser (importRowStripped db code title nm em).users nm em
        = resolveUser db.users nm em := by
      rw [hu]; exact resolveUser_idem _ _ _
    ext1
    · rw [hc2, hcid, hc]
    · rw [hu2, huid, hu]
    · rw [hl2, hcid, huid, hl, resolveLink_idem]

/-- For rows all of whose cells are strings, one loop iteration cannot raise
and is exactly the skip-or-ensure body. -/
theorem importRow_ok_of_all_strings (db : AdminDB) (c t n e : String) :
    importRow db { course_code := some c, course_title := some t,
                   instructor_name := some n, instructor_email := some e }
      = .ok (importRowStripped db (pyStripS c) (pyStripS t) (pyStripS n)
          (pyLowerS (pyStripS e))) := rfl

/-- A `NaN` cell makes the iteration raise `AttributeError` before the skip
guard is ever reached. -/
theorem importRow_raises_on_nan_email (db : AdminDB) (c t n : Option String)
    (hc : c.isSome) (ht : t.isSome) (hn : n.isSome) :
    importRow db { course_code := c, course_title := t,
                   instructor_name := n, instructor_email := none }
      = .error .attributeError := by
  obtain ⟨c', rfl⟩ := Option.isSome_iff_exists.mp hc
  obtain ⟨t', rfl⟩ := Option.isSome_iff_exists.mp ht
  obtain ⟨n', rfl⟩ := Option.isSome_iff_exists.mp hn
  rfl

/--
C8 (code bug): the claim's skip-and-continue is the loop's evident intent —
the `continue` guard and the `.get(field, '')` defaults exist precisely to
pass over incomplete rows, and the spec states the scenario explicitly — but a
missing CSV cell reaches the loop as pandas `NaN`, so
`row.get('instructor_email', '').strip()` (Home.py line 248) raises
`AttributeError` and aborts the import.  Importing [Ada, NaN-email row, Cleo]
commits Ada's course, user and link and then stops: CS103 is never imported,
against the claim's "rows before and after a skipped row are still imported".
The same rows with the missing field as an empty string — the representation
every paste-path cell has — are skipped as claimed and both valid rows import.
-/
theorem bulk_import_nan_aborts :
    import_courses_and_instructors_from_df ⟨[], [], []⟩ [rowAda, rowBobNaN, rowCleo]
      = .aborted .attributeError dbAfterAda ∧
    (∃ c ∈ dbAfterAda.courses, c.code = "CS101") ∧
    (∀ c ∈ dbAfterAda.courses, c.code ≠ "CS103") ∧
    importRow dbAfterAda rowBobNaN = .error .attributeError ∧
    import_courses_and_instructors_from_df ⟨[], [], []⟩ [rowAda, rowBobMissing, rowCleo]
      = .done dbAdaCleo ∧
    import_courses_and_instructors_from_df ⟨[], [], []⟩ [rowAda, rowCleo]
      = .done dbAdaCleo ∧
    (∃ c ∈ dbAdaCleo.courses, c.code = "CS103") := by
  decide

/--
C5: with both bounds supplied, the report query returns exactly the otherwise
in-scope rows whose `check_in_at` lies in the half-open interval
`[date_from, date_to)` — a check-in exactly at `date_from` is included, one
exactly at `date_to` is excluded.
-/
theorem report_date_filter_half_open (db : ReportDB) (ie : Option String)
    (cids : Option (List Nat)) (f t : Int) (r : ReportRow) :
    r ∈ get_report_base_query db ie cids (some f) (some t) ↔
      r ∈ get_report_base_query db ie cids none none ∧
        f ≤ r.check_in_at ∧ r.check_in_at < t := by
  unfold get_report_base_query
  simp only [List.mem_map, List.mem_filter, decide_eq_true_eq]
  constructor
  · rintro ⟨tr, ⟨⟨htr, hf⟩, ht⟩, rfl⟩
    exact ⟨⟨tr, htr, rfl⟩, hf, ht⟩
  · rintro ⟨⟨tr, htr, rfl⟩, hf, ht⟩
    exact ⟨tr, ⟨⟨htr, hf⟩, ht⟩, rfl⟩

theorem mem_of_mem_dropDupByAux {α κ : Type} [DecidableEq κ] (key : α → κ) :
    ∀ (l : List α) (seen : List κ) (a : α), a ∈ dropDupByAux key l seen → a ∈ l
  | [], _, a, h => by simp [dropDupByAux] at h
  | x :: xs, seen, a, h => by
    by_cases hx : key x ∈ seen
    · simp only [dropDupByAux, if_pos hx] at h
      exact List.mem_cons_of_mem x (mem_of_mem_dropDupByAux key xs seen a h)
    · simp only [dropDupByAux, if_neg hx] at h
      rcases List.mem_cons.mp h with rfl | hmem
      · exact List.mem_cons_self a xs
      · exact List.mem_cons_of_mem x (mem_of_mem_dropDupByAux key xs _ a hmem)

theorem exists_key_mem_dropDupByAux {α κ : Type} [DecidableEq κ] (key : α → κ) :
    ∀ (l : List α) (seen : List κ) (a : α), a ∈ l → key a ∉ seen →
      ∃ b, b ∈ dropDupByAux key l seen ∧ key b = key a
  | [], _, a, h, _ => absurd h (List.not_mem_nil a)
  | x :: xs, seen, a, h, hn => by
    by_cases hx : key x ∈ seen
    · simp only [dropDupByAux, if_pos hx]
      rcases List.mem_cons.mp h with rfl | hmem
      · exact absurd hx hn
      · exact exists_key_mem_dropDupByAux key xs seen a hmem hn
    · simp only [dropDupByAux, if_neg hx]
      rcases List.mem_cons.mp h with rfl | hmem
      · exact ⟨a, List.mem_cons_self a _, rfl⟩
      · by_cases hk : key a = key x
        · exact ⟨x, List.mem_cons_self x _, hk.symm⟩
        · obtain ⟨b, hb, hkey⟩ := exists_key_mem_dropDupByAux key xs (key x :: seen) a hmem
            (by simp [List.mem_cons, hk, hn])
          exact ⟨b, List.mem_cons_of_mem x hb, hkey⟩

theorem mem_of_mem_dropDuplicatesBy {α κ : Type} [DecidableEq κ] (key : α → κ)
    (l : List α) (a : α) (h : a ∈ dropDuplicatesBy key l) : a ∈ l :=
  mem_of_mem_dropDupByAux key l [] a h

theorem exists_key_mem_dropDuplicatesBy {α κ : Type} [DecidableEq κ] (key : α → κ)
    (l : List α) (a : α) (h : a ∈ l) :
    ∃ b, b ∈ dropDuplicatesBy key l ∧ key b = key a :=
  exists_key_mem_dropDupByAux key l [] a h (List.not_mem_nil _)

theorem attendedSessionsOf_eq_distinct (rows : List ReportRow) (c e : String) :
    attendedSessionsOf rows c e = distinctSessionsFor rows c e := by
  unfold attendedSessionsOf distinctSessionsFor attendedDfOf
  rw [← List.card_toFinset]
  congr 1
  ext x
  simp only [List.mem_toFinset, List.mem_map, List.mem_filter, Bool.and_eq_true, beq_iff_eq]
  constructor
  · rintro ⟨r, ⟨hr, hc, he⟩, rfl⟩
    exact ⟨r, ⟨mem_of_mem_dropDuplicatesBy _ rows r hr, hc, he⟩, rfl⟩
  · rintro ⟨r, ⟨hr, hc, he⟩, rfl⟩
    obtain ⟨b, hb, hkey⟩ := exists_key_mem_dropDuplicatesBy
      (fun r => (r.course_code, r.session_id, r.student_email)) rows r hr
    obtain ⟨h1, h2, h3⟩ :
        b.course_code = r.course_code ∧ b.session_id = r.session_id ∧
          b.student_email = r.student_email := by
      simpa [Prod.ext_iff] using hkey
    exact ⟨b, ⟨hb, h1.trans hc, h3.trans he⟩, h2⟩

theorem totalSessionsOf_eq_distinct (rows : List ReportRow) (c : String) :
    totalSessionsOf rows c = distinctSessionsOfCourse rows c := by
  unfold totalSessionsOf distinctSessionsOfCourse totalDfOf
  rw [← List.card_toFinset]
  congr 1
  ext x
  simp only [List.mem_toFinset, List.mem_map, List.mem_filter, beq_iff_eq]
  constructor
  · rintro ⟨r, ⟨hr, hc⟩, rfl⟩
    exact ⟨r, ⟨mem_of_mem_dropDuplicatesBy _ rows r hr, hc⟩, rfl⟩
  · rintro ⟨r, ⟨hr, hc⟩, rfl⟩
    obtain ⟨b, hb, hkey⟩ := exists_key_mem_dropDuplicatesBy
      (fun r => (r.course_code, r.session_id)) rows r hr
    obtain ⟨h1, h2⟩ : b.course_code = r.course_code ∧ b.session_id = r.session_id := by
      simpa [Prod.ext_iff] using hkey
    exact ⟨b, ⟨hb, h1.trans hc⟩, h2⟩

theorem pairs_course_in_total (rows : List ReportRow) (p : String × String)
    (hp : p ∈ pairsOf rows) : (totalCoursesOf rows).contains p.1 = true := by
  unfold pairsOf at hp
  rw [List.mem_insertionSort, List.mem_dedup] at hp
  obtain ⟨r, hr, rfl⟩ := List.mem_map.mp hp
  have hrows := mem_of_mem_dropDuplicatesBy _ rows r hr
  obtain ⟨b, hb, hkey⟩ := exists_key_mem_dropDuplicatesBy
    (fun r => (r.course_code, r.session_id)) rows r hrows
  obtain ⟨h1, _⟩ : b.course_code = r.course_code ∧ b.session_id = r.session_id := by
    simpa [Prod.ext_iff] using hkey
  unfold totalCoursesOf
  simp only [List.contains, List.elem_eq_mem, decide_eq_true_eq, List.mem_dedup,
    List.mem_map]
  exact ⟨b, hb, h1⟩

theorem pairsOf_toFinset (rows : List ReportRow) :
    (pairsOf rows).toFinset
      = (rows.map (fun r => (r.course_code, r.student_email))).toFinset := by
  unfold pairsOf
  ext p
  simp only [List.mem_toFinset, List.mem_insertionSort, List.mem_dedup, List.mem_map]
  constructor
  · rintro ⟨r, hr, rfl⟩
    exact ⟨r, mem_of_mem_dropDuplicatesBy _ rows r hr, rfl⟩
  · rintro ⟨r, hr, rfl⟩
    obtain ⟨b, hb, hkey⟩ := exists_key_mem_dropDuplicatesBy
      (fun r => (r.course_code, r.session_id, r.student_email)) rows r hr
    obtain ⟨h1, _, h3⟩ :
        b.course_code = r.course_code ∧ b.session_id = r.session_id ∧
          b.student_email = r.student_email := by
      simpa [Prod.ext_iff] using hkey
    exact ⟨b, hb, by rw [h1, h3]⟩

/--
C4: for every filtered row set, each entry of `course_attendance_rates`
reports, per (course, student), the number of distinct sessions the student
checked into for that course divided by the number of distinct sessions
appearing for that course in the row set, times 100, rounded to one decimal;
the table is sorted by course_code ascending then rate descending and has
exactly the (course, student) pairs of the row set; in the two-session
scenario, the student who attended both sessions gets 100.0 and the student
who attended only the first gets 50.0.
-/
theorem course_attendance_rates_spec :
    (∀ (df : Frame) (er : RateRow), er ∈ (course_attendance_rates df).2 →
       er.attended_sessions = distinctSessionsFor df.rows er.course_code er.student_email ∧
       er.total_sessions = distinctSessionsOfCourse df.rows er.course_code ∧
       er.rate = round1 ((er.attended_sessions : ℚ) / (er.total_sessions : ℚ) * 100)) ∧
    (∀ df : Frame, List.Sorted rateLE (course_attendance_rates df).2) ∧
    (∀ df : Frame,
       ((course_attendance_rates df).2.map
         (fun er => (er.course_code, er.student_email))).toFinset
         = (df.rows.map (fun r => (r.course_code, r.student_email))).toFinset) ∧
    (course_attendance_rates ⟨reportCols, scenarioRows⟩).2 = scenarioExpected := by
  refine ⟨?_, ?_, ?_, by with_unfolding_all decide⟩
  · intro df er her
    by_cases h : df.rows.isEmpty
    · unfold course_attendance_rates at her
      rw [if_pos h] at her
      simp at her
    · unfold course_attendance_rates at her
      rw [if_neg h] at her
      simp only at her
      rw [List.mem_insertionSort] at her
      obtain ⟨p, hp, rfl⟩ := List.mem_map.mp her
      exact ⟨attendedSessionsOf_eq_distinct df.rows p.1 p.2,
        totalSessionsOf_eq_distinct df.rows p.1, rfl⟩
  · intro df
    unfold course_attendance_rates
    by_cases h : df.rows.isEmpty
    · rw [if_pos h]
      simp
    · rw [if_neg h]
      exact List.sorted_insertionSort rateLE _
  · intro df
    unfold course_attendance_rates
    by_cases h : df.rows.isEmpty
    · rw [if_pos h]
      rw [List.isEmpty_iff] at h
      simp [h]
    · rw [if_neg h]
      simp only
      have hperm := (List.perm_insertionSort rateLE
        (((pairsOf df.rows).filter (fun p => (totalCoursesOf df.rows).contains p.1)).map
          (rateRowOf df.rows))).map (fun er : RateRow => (er.course_code, er.student_email))
      rw [List.toFinset_eq_of_perm _ _ hperm, List.map_map]
      have hproj : ((fun er : RateRow => (er.course_code, er.student_email)) ∘
          rateRowOf df.rows) = fun p : String × String => p := by
        funext p
        rfl
      rw [hproj]
      rw [List.filter_eq_self.mpr (fun p hp => pairs_course_in_total df.rows p hp)]
      rw [List.map_id']
      exact pairsOf_toFinset df.rows

theorem course_attendance_rates_spec_witness :
    (({ course_code := "C", student_email := "alice@hua.gr", attended_sessions := 2,
        total_sessions := 2, rate := 100 } : RateRow)
      ∈ (course_attendance_rates ⟨reportCols, scenarioRows⟩).2) ∧
    (({ course_code := "C", student_email := "alice@hua.gr", attended_sessions := 2,
        total_sessions := 2, rate := 100 } : RateRow).attended_sessions
      = distinctSessionsFor scenarioRows "C" "alice@hua.gr") :=
  ⟨by with_unfolding_all decide,
   (course_attendance_rates_spec.1 ⟨reportCols, scenarioRows⟩
     { course_code := "C", student_email := "alice@hua.gr", attended_sessions := 2,
       total_sessions := 2, rate := 100 } (by with_unfolding_all decide)).1⟩

/--
C10: on an empty filtered row set, `df_from_query` still returns a table with
the seven fixed report columns, `group_df` returns its empty input unchanged
as both the grouped and the pivot result (so neither carries the aggregate
columns `check_ins`, `unique_students`, `sessions`), and
`course_attendance_rates` returns an empty table with no columns at all.
-/
theorem empty_report_views :
    ∀ (tz : Int → Int) (bucket : Int → Int),
      (df_from_query tz []).cols = reportCols ∧
      group_df (df_from_query tz []) bucket
        = (.passthrough (df_from_query tz []), .passthrough (df_from_query tz [])) ∧
      ("check_ins" ∉ (df_from_query tz []).cols ∧
       "unique_students" ∉ (df_from_query tz []).cols ∧
       "sessions" ∉ (df_from_query tz []).cols) ∧
      (course_attendance_rates (df_from_query tz [])).1 = [] ∧
      (course_attendance_rates (df_from_query tz [])).2 = [] := by
  intro tz bucket
  exact ⟨rfl, rfl,
    ⟨(by decide : "check_ins" ∉ reportCols),
     (by decide : "unique_students" ∉ reportCols),
     (by decide : "sessions" ∉ reportCols)⟩, rfl, rfl⟩

end AttendanceApp
